import Mathlib

/-!
A verification development for the orchestration core of the MCP4EDA EDA
tool server (`src/src/index.ts`).  The TypeScript source is shallowly
embedded: pure helpers become Lean functions, the mutable workspace
registry (`EDAServer.projects`) becomes explicit state passing over an
association list with JavaScript `Map.set`/`Map.get` semantics, and every
interaction with the outside world (child processes, the filesystem, the
regex engine) is a parameter of the embedded function, so that each driver
is a total function of its inputs and its environment.  File-system paths
are modelled as lists of path segments (`path.join` appends one segment).
-/

set_option maxRecDepth 10000

namespace MCP4EDA

/-- Substring containment for `String`, stated on the underlying character
list: `needle` occurs contiguously inside `hay`. -/
def strContains (hay needle : String) : Prop :=
  ∃ pre post : List Char, hay.data = pre ++ needle.data ++ post

/-- Boolean suffix test on the underlying character lists; models the
JavaScript `String.prototype.endsWith`. -/
def strEndsWith (s suffix : String) : Bool :=
  suffix.data.isSuffixOf s.data

/-- Model of JavaScript `s.substring(0, n)` (used for the bounded report
excerpts): the first `n` characters of `s`.  ASCII report text is assumed,
so UTF-16 units coincide with characters. -/
def jsSubstring (s : String) (n : Nat) : String :=
  String.mk (s.data.take n)

/-- Model of JavaScript `String.prototype.toLowerCase` (used for the
target-technology dispatch at src/src/index.ts:162). -/
def jsToLowerCase (s : String) : String :=
  String.mk (s.data.map Char.toLower)

/- ## Helper functions (src/src/index.ts:20-46) -/

/-- Model of a JavaScript value appearing in tool-call arguments.  Numbers
are modelled as integers; no verified property depends on numeric
semantics. -/
inductive JSValue where
  | str (s : String)
  | num (n : Int)
  | boolean (b : Bool)
  | null
  deriving DecidableEq, Repr

/-- The `arguments` object of a tool call: named parameters.  A JavaScript
object has at most one binding per key; lookup takes the first match. -/
abbrev Args := List (String × JSValue)

/-- Property lookup `obj[key]` guarded by `key in obj`. -/
def jsGet (args : Args) (key : String) : Option JSValue :=
  (args.find? (fun p => p.1 == key)).map (·.2)

/-- `getStringProperty` (src/src/index.ts:21-27): the value when present
and a string, the default otherwise — also when the key is present with a
non-string value.  (An entirely absent `arguments` object behaves like the
empty list.) -/
def getStringProperty (args : Args) (key : String) (defaultValue : String) : String :=
  match jsGet args key with
  | some (.str s) => s
  | some _ => defaultValue
  | none => defaultValue

/-- `getNumberProperty` (src/src/index.ts:29-35), with JS numbers modelled
as integers. -/
def getNumberProperty (args : Args) (key : String) (defaultValue : Int) : Int :=
  match jsGet args key with
  | some (.num n) => n
  | some _ => defaultValue
  | none => defaultValue

/-- Protocol error codes of the MCP SDK used by the source. -/
inductive ErrorCode where
  | invalidParams
  | methodNotFound
  | internalError
  deriving DecidableEq, Repr

/-- An `McpError` thrown by the handler: a protocol-level failure, as
opposed to a `{success: false}` envelope returned as tool output. -/
structure McpError where
  code : ErrorCode
  message : String
  deriving DecidableEq, Repr

/-- The message built at src/src/index.ts:42. -/
def missingParamMessage (key toolName : String) : String :=
  "Missing required parameter '" ++ key ++ "' for tool '" ++ toolName ++ "'"

/-- `validateRequiredString` (src/src/index.ts:37-46).  JavaScript
`!value` on a string is true exactly for the empty string, so the check
fires when the parameter is absent, empty, or present with a non-string
value (which `getStringProperty` collapses to the default `""`).
`Except.error` models the thrown `McpError`. -/
def validateRequiredString (args : Args) (key toolName : String) : Except McpError String :=
  let value := getStringProperty args key ""
  if value = "" then
    .error ⟨.invalidParams, missingParamMessage key toolName⟩
  else
    .ok value

/- ## Process Runner (src/src/index.ts:48-115) -/

/-- The behaviour of the spawned OS process, decided by the environment:
it either completes `time` milliseconds after spawn with an exit code and
captured streams, fails to launch at `time` with an error message, or
never completes. -/
inductive ProcOutcome where
  | completes (time : Nat) (exitCode : Int) (stdout stderr : String)
  | launchFailure (time : Nat) (message : String)
  | hangs
  deriving DecidableEq, Repr

/-- The configured timeout budget elapses before the process settles. -/
def ProcOutcome.timedOut (o : ProcOutcome) (timeoutMs : Nat) : Prop :=
  match o with
  | .completes t _ _ _ => timeoutMs ≤ t
  | .launchFailure t _ => timeoutMs ≤ t
  | .hangs => True

instance : (o : ProcOutcome) → (timeoutMs : Nat) → Decidable (o.timedOut timeoutMs)
  | .completes t _ _ _, ms => inferInstanceAs (Decidable (ms ≤ t))
  | .launchFailure t _, ms => inferInstanceAs (Decidable (ms ≤ t))
  | .hangs, _ => inferInstanceAs (Decidable True)

/-- Observable result of one `execAsyncWithTimeout`/`spawnAsyncWithTimeout`
call: how the promise settles, which signal (if any) the timeout handler
sent to the child, and whether `clearTimeout` disarmed the timer. -/
structure RunnerResult where
  result : Except String (String × String)
  killSignal : Option String
  timerCleared : Bool
  deriving Repr

/-- The rejection message built at src/src/index.ts:53 and 85. -/
def timeoutMessage (timeoutMs : Nat) (commandLine : String) : String :=
  "Command timed out after " ++ toString timeoutMs ++ "ms: " ++ commandLine

/-- Model of the `Error.message` Node's `child_process.exec` passes to its
callback when the command exits non-zero: `Command failed: <cmd>` followed
by the captured stderr. -/
def execErrorMessage (command stderr : String) : String :=
  "Command failed: " ++ command ++ "\n" ++ stderr

/-- `execAsyncWithTimeout` (src/src/index.ts:49-75).  The promise settles
with whichever of the timeout timer and the exec callback fires first; the
timer fires iff the process has not settled strictly before `timeoutMs`.
On expiry the child is sent `SIGKILL` and the promise rejects with the
timeout message; on completion the timer is disarmed and the callback's
result (success, or the exec error) is propagated. -/
def execAsyncWithTimeout (command : String) (timeoutMs : Nat) (outcome : ProcOutcome) : RunnerResult :=
  match outcome with
  | .completes t code out err =>
      if t < timeoutMs then
        if code = 0 then ⟨.ok (out, err), none, true⟩
        else ⟨.error (execErrorMessage command err), none, true⟩
      else ⟨.error (timeoutMessage timeoutMs command), some "SIGKILL", false⟩
  | .launchFailure t msg =>
      if t < timeoutMs then ⟨.error msg, none, true⟩
      else ⟨.error (timeoutMessage timeoutMs command), some "SIGKILL", false⟩
  | .hangs => ⟨.error (timeoutMessage timeoutMs command), some "SIGKILL", false⟩

/-- `spawnAsyncWithTimeout` (src/src/index.ts:78-115): same timer
discipline, with the command line rendered as `command args.join(' ')` and
a distinct non-zero-exit message (src/src/index.ts:106). -/
def spawnAsyncWithTimeout (command : String) (args : List String) (timeoutMs : Nat)
    (outcome : ProcOutcome) : RunnerResult :=
  let commandLine := command ++ " " ++ String.intercalate " " args
  match outcome with
  | .completes t code out err =>
      if t < timeoutMs then
        if code = 0 then ⟨.ok (out, err), none, true⟩
        else ⟨.error ("Command failed with exit code " ++ toString code ++ ": " ++
                commandLine ++ "\n" ++ err), none, true⟩
      else ⟨.error (timeoutMessage timeoutMs commandLine), some "SIGKILL", false⟩
  | .launchFailure t msg =>
      if t < timeoutMs then ⟨.error msg, none, true⟩
      else ⟨.error (timeoutMessage timeoutMs commandLine), some "SIGKILL", false⟩
  | .hangs => ⟨.error (timeoutMessage timeoutMs commandLine), some "SIGKILL", false⟩

lemma strContains_of_append (a b c : String) : strContains (a ++ b ++ c) b := by
  refine ⟨a.data, c.data, ?_⟩
  simp [String.data_append]

lemma timeoutMessage_contains_command (timeoutMs : Nat) (commandLine : String) :
    strContains (timeoutMessage timeoutMs commandLine) commandLine := by
  refine ⟨("Command timed out after " ++ toString timeoutMs ++ "ms: ").data, [], ?_⟩
  simp [timeoutMessage, String.data_append]

lemma timeoutMessage_contains_budget (timeoutMs : Nat) (commandLine : String) :
    strContains (timeoutMessage timeoutMs commandLine) (toString timeoutMs ++ "ms") := by
  refine ⟨("Command timed out after ").data, (": " ++ commandLine).data, ?_⟩
  simp [timeoutMessage, String.data_append]

end MCP4EDA

namespace MCP4EDA

/-- Claim C2: for every Process Runner invocation whose configured timeout
budget elapses before the external command settles, the child is sent the
non-catchable `SIGKILL` signal and the call rejects (never resolves) with
a message containing both the original command line and the elapsed
timeout budget; on settlement before the deadline the timer is disarmed
by `clearTimeout` and no kill signal is sent.  Proved for both
`execAsyncWithTimeout` and `spawnAsyncWithTimeout`. -/
theorem runner_timeout_kills_and_reports (command : String) (args : List String)
    (timeoutMs : Nat) (o : ProcOutcome) :
    (o.timedOut timeoutMs →
      (execAsyncWithTimeout command timeoutMs o).killSignal = some "SIGKILL" ∧
      (execAsyncWithTimeout command timeoutMs o).result =
        .error (timeoutMessage timeoutMs command) ∧
      strContains (timeoutMessage timeoutMs command) command ∧
      strContains (timeoutMessage timeoutMs command) (toString timeoutMs ++ "ms") ∧
      (spawnAsyncWithTimeout command args timeoutMs o).killSignal = some "SIGKILL" ∧
      (spawnAsyncWithTimeout command args timeoutMs o).result =
        .error (timeoutMessage timeoutMs (command ++ " " ++ String.intercalate " " args))) ∧
    (¬ o.timedOut timeoutMs →
      (execAsyncWithTimeout command timeoutMs o).killSignal = none ∧
      (execAsyncWithTimeout command timeoutMs o).timerCleared = true ∧
      (spawnAsyncWithTimeout command args timeoutMs o).killSignal = none ∧
      (spawnAsyncWithTimeout command args timeoutMs o).timerCleared = true) := by
  constructor
  · intro h
    cases o with
    | completes t code out err =>
        have ht : ¬ t < timeoutMs := by
          simpa [ProcOutcome.timedOut, Nat.not_lt] using h
        refine ⟨?_, ?_, timeoutMessage_contains_command _ _,
          timeoutMessage_contains_budget _ _, ?_, ?_⟩ <;>
          simp [execAsyncWithTimeout, spawnAsyncWithTimeout, ht]
    | launchFailure t msg =>
        have ht : ¬ t < timeoutMs := by
          simpa [ProcOutcome.timedOut, Nat.not_lt] using h
        refine ⟨?_, ?_, timeoutMessage_contains_command _ _,
          timeoutMessage_contains_budget _ _, ?_, ?_⟩ <;>
          simp [execAsyncWithTimeout, spawnAsyncWithTimeout, ht]
    | hangs =>
        refine ⟨?_, ?_, timeoutMessage_contains_command _ _,
          timeoutMessage_contains_budget _ _, ?_, ?_⟩ <;>
          simp [execAsyncWithTimeout, spawnAsyncWithTimeout]
  · intro h
    cases o with
    | completes t code out err =>
        have ht : t < timeoutMs := by
          by_contra hc
          exact h (by simpa [ProcOutcome.timedOut, Nat.not_lt] using hc)
        by_cases hcode : code = 0 <;>
          simp [execAsyncWithTimeout, spawnAsyncWithTimeout, ht, hcode]
    | launchFailure t msg =>
        have ht : t < timeoutMs := by
          by_contra hc
          exact h (by simpa [ProcOutcome.timedOut, Nat.not_lt] using hc)
        simp [execAsyncWithTimeout, spawnAsyncWithTimeout, ht]
    | hangs => exact absurd trivial h

/-- Witness for C2 at a concrete invocation: a command that would complete
only after 700000 ms against a 600000 ms budget times out, is killed, and
the message names the command and the budget; the same command completing
at 1000 ms is not killed and the timer is disarmed. -/
theorem runner_timeout_kills_and_reports_witness :
    ((ProcOutcome.completes 700000 0 "out" "").timedOut 600000 ∧
      (execAsyncWithTimeout "yosys -s synth.ys" 600000
        (ProcOutcome.completes 700000 0 "out" "")).killSignal = some "SIGKILL" ∧
      (execAsyncWithTimeout "yosys -s synth.ys" 600000
        (ProcOutcome.completes 700000 0 "out" "")).result =
          .error (timeoutMessage 600000 "yosys -s synth.ys")) ∧
    (¬ (ProcOutcome.completes 1000 0 "out" "").timedOut 600000 ∧
      (execAsyncWithTimeout "yosys -s synth.ys" 600000
        (ProcOutcome.completes 1000 0 "out" "")).killSignal = none ∧
      (execAsyncWithTimeout "yosys -s synth.ys" 600000
        (ProcOutcome.completes 1000 0 "out" "")).timerCleared = true) := by
  have h1 := (runner_timeout_kills_and_reports "yosys -s synth.ys" [] 600000
    (ProcOutcome.completes 700000 0 "out" "")).1 (by decide)
  have h2 := (runner_timeout_kills_and_reports "yosys -s synth.ys" [] 600000
    (ProcOutcome.completes 1000 0 "out" "")).2 (by decide)
  exact ⟨⟨by decide, h1.1, h1.2.1⟩, ⟨by decide, h2.1, h2.2.1⟩⟩

/- ## Workspace Manager: the `projects` registry (src/src/index.ts:127-145) -/

/-- A registered workspace: `{ dir, type }` as stored in
`EDAServer.projects` (src/src/index.ts:129).  Directories are lists of
path segments. -/
structure Project where
  dir : List String
  type : String
  deriving DecidableEq, Repr

/-- The `projects` map, observed only through `Map.set` and `Map.get`. -/
abbrev Registry := List (String × Project)

/-- JavaScript `Map.set`: the new binding shadows any earlier one (lookup
takes the most recent binding for a key). -/
def mapSet (m : Registry) (k : String) (v : Project) : Registry :=
  (k, v) :: m

/-- JavaScript `Map.get`: the most recently set value for the key, if
any. -/
def mapGet (m : Registry) (k : String) : Option Project :=
  (m.find? (fun p => p.1 == k)).map (·.2)

/-- Per-server-run configuration fixed in the constructor
(src/src/index.ts:132-136): the platform temp directory segments, the
`Date.now()` stamp rendered into the temp-directory name, and the home
directory segments. -/
structure ServerCfg where
  tmpSegs : List String
  nowStamp : String
  homeSegs : List String
  deriving DecidableEq, Repr

/-- `this.tempDir = join(tmpdir(), `eda_mcp_${Date.now()}`)`. -/
def tempDir (cfg : ServerCfg) : List String :=
  cfg.tmpSegs ++ ["eda_mcp_" ++ cfg.nowStamp]

/-- `this.openlaneDir = join(homedir(), "openlane-projects")`. -/
def openlaneDir (cfg : ServerCfg) : List String :=
  cfg.homeSegs ++ ["openlane-projects"]

/-- Workspace directory of a synthesis call (src/src/index.ts:150). -/
def synthProjectDir (cfg : ServerCfg) (token : String) : List String :=
  tempDir cfg ++ ["project_" ++ token]

/-- Workspace directory of a simulation call (src/src/index.ts:228). -/
def simProjectDir (cfg : ServerCfg) (token : String) : List String :=
  tempDir cfg ++ ["sim_project_" ++ token]

/-- Workspace directory of a physical-design-flow call
(src/src/index.ts:342-343): `join(openlaneDir, designName_token)`. -/
def flowProjectDir (cfg : ServerCfg) (designName token : String) : List String :=
  openlaneDir cfg ++ [designName ++ "_" ++ token]

/-- One Workspace Manager `create` call, tagged by the driver performing
it; `token` is the value drawn from
`Math.random().toString(36).substring(2, 15)` — an input of the model, the
code has no collision handling. -/
inductive CreateStep where
  | synth (token : String)
  | sim (token : String)
  | flow (designName token : String)
  deriving DecidableEq, Repr

/-- The identifier returned to the caller by a create call. -/
def stepToken : CreateStep → String
  | .synth t => t
  | .sim t => t
  | .flow _ t => t

/-- The directory created and registered by a create call. -/
def stepDir (cfg : ServerCfg) : CreateStep → List String
  | .synth t => synthProjectDir cfg t
  | .sim t => simProjectDir cfg t
  | .flow n t => flowProjectDir cfg n t

/-- The `type` tag stored by a create call (src/src/index.ts:154, 232,
346). -/
def stepType : CreateStep → String
  | .synth _ => "synthesis"
  | .sim _ => "simulation"
  | .flow _ _ => "openlane"

/-- The record a create call stores in `projects`. -/
def stepRecord (cfg : ServerCfg) (s : CreateStep) : Project :=
  ⟨stepDir cfg s, stepType s⟩

/-- A run of the server: the registry after a sequence of create calls
(each performing `projects.set(projectId, record)`). -/
def runCreates (cfg : ServerCfg) (steps : List CreateStep) : Registry :=
  steps.foldl (fun st s => mapSet st (stepToken s) (stepRecord cfg s)) []

/-- Two physical-design-flow creates collide on the same directory name
`designName_token` even with distinct tokens (e.g. designs `a_b`/token `c`
and `a`/token `b_c`). -/
def flowClashB : CreateStep → CreateStep → Bool
  | .flow n1 t1, .flow n2 t2 => n1 ++ "_" ++ t1 == n2 ++ "_" ++ t2
  | _, _ => false

lemma string_data_inj {s t : String} (h : s.data = t.data) : s = t := by
  cases s; cases t; exact congrArg String.mk h

lemma strAppend_left_cancel {p a b : String} (h : p ++ a = p ++ b) : a = b := by
  have h2 := congrArg String.data h
  rw [String.data_append, String.data_append] at h2
  exact string_data_inj (List.append_cancel_left h2)

lemma strAppend_ne_of_head (a b t1 t2 : String) {c1 c2 : Char}
    {r1 r2 : List Char} (ha : a.data = c1 :: r1) (hb : b.data = c2 :: r2)
    (hc : c1 ≠ c2) : a ++ t1 ≠ b ++ t2 := by
  intro h
  have h2 := congrArg String.data h
  rw [String.data_append, String.data_append, ha, hb] at h2
  simp only [List.cons_append, List.cons.injEq] at h2
  exact hc h2.1

lemma append_pair_inj {α : Type} {l1 l2 : List α} {a1 b1 a2 b2 : α}
    (h : l1 ++ [a1, b1] = l2 ++ [a2, b2]) : a1 = a2 ∧ b1 = b2 := by
  have h1 : (l1 ++ [a1]) ++ [b1] = (l2 ++ [a2]) ++ [b2] := by
    simpa [List.append_assoc] using h
  obtain ⟨h3, h4⟩ := List.append_inj' h1 rfl
  obtain ⟨-, h5⟩ := List.append_inj' h3 rfl
  constructor
  · simpa using h5
  · simpa using h4

/-- The temp-directory name never coincides with `"openlane-projects"`
(first characters differ). -/
lemma tempName_ne_openlane (cfg : ServerCfg) :
    "eda_mcp_" ++ cfg.nowStamp ≠ "openlane-projects" := by
  have h := strAppend_ne_of_head "eda_mcp_" "openlane-projects"
    cfg.nowStamp "" rfl rfl (by decide)
  simpa using h

/-- Distinct tokens and non-clashing flow directory names give distinct
workspace directories, whatever the two create kinds are. -/
lemma stepDir_ne (cfg : ServerCfg) {s1 s2 : CreateStep}
    (htok : stepToken s1 ≠ stepToken s2) (hclash : flowClashB s1 s2 = false) :
    stepDir cfg s1 ≠ stepDir cfg s2 := by
  cases s1 with
  | synth t1 =>
    cases s2 with
    | synth t2 =>
      intro h
      simp only [stepDir, synthProjectDir, tempDir, List.append_assoc] at h
      have h3 := List.append_cancel_left (List.append_cancel_left h)
      simp only [List.cons.injEq, and_true] at h3
      exact htok (strAppend_left_cancel h3)
    | sim t2 =>
      intro h
      simp only [stepDir, synthProjectDir, simProjectDir, tempDir, List.append_assoc] at h
      have h3 := List.append_cancel_left (List.append_cancel_left h)
      simp only [List.cons.injEq, and_true] at h3
      exact strAppend_ne_of_head "project_" "sim_project_" t1 t2
        rfl rfl (by decide) h3
    | flow n2 t2 =>
      intro h
      simp only [stepDir, synthProjectDir, flowProjectDir, tempDir, openlaneDir,
        List.append_assoc] at h
      have h2 := append_pair_inj (by simpa using h)
      exact tempName_ne_openlane cfg h2.1
  | sim t1 =>
    cases s2 with
    | synth t2 =>
      intro h
      simp only [stepDir, synthProjectDir, simProjectDir, tempDir, List.append_assoc] at h
      have h3 := List.append_cancel_left (List.append_cancel_left h)
      simp only [List.cons.injEq, and_true] at h3
      exact strAppend_ne_of_head "sim_project_" "project_" t1 t2
        rfl rfl (by decide) h3
    | sim t2 =>
      intro h
      simp only [stepDir, simProjectDir, tempDir, List.append_assoc] at h
      have h3 := List.append_cancel_left (List.append_cancel_left h)
      simp only [List.cons.injEq, and_true] at h3
      exact htok (strAppend_left_cancel h3)
    | flow n2 t2 =>
      intro h
      simp only [stepDir, simProjectDir, flowProjectDir, tempDir, openlaneDir,
        List.append_assoc] at h
      have h2 := append_pair_inj (by simpa using h)
      exact tempName_ne_openlane cfg h2.1
  | flow n1 t1 =>
    cases s2 with
    | synth t2 =>
      intro h
      simp only [stepDir, synthProjectDir, flowProjectDir, tempDir, openlaneDir,
        List.append_assoc] at h
      have h2 := append_pair_inj (by simpa using h.symm)
      exact tempName_ne_openlane cfg h2.1
    | sim t2 =>
      intro h
      simp only [stepDir, simProjectDir, flowProjectDir, tempDir, openlaneDir,
        List.append_assoc] at h
      have h2 := append_pair_inj (by simpa using h.symm)
      exact tempName_ne_openlane cfg h2.1
    | flow n2 t2 =>
      intro h
      simp only [stepDir, flowProjectDir, openlaneDir, List.append_assoc] at h
      have h3 := List.append_cancel_left (List.append_cancel_left h)
      simp only [List.cons.injEq, and_true] at h3
      have : flowClashB (.flow n1 t1) (.flow n2 t2) = true := by
        simp [flowClashB, h3]
      rw [hclash] at this
      exact Bool.false_ne_true this

lemma mapGet_mapSet_same (m : Registry) (k : String) (v : Project) :
    mapGet (mapSet m k v) k = some v := by
  simp [mapGet, mapSet, List.find?]

lemma mapGet_mapSet_other (m : Registry) {k k' : String} (v : Project)
    (h : k ≠ k') : mapGet (mapSet m k v) k' = mapGet m k' := by
  simp only [mapGet, mapSet, List.find?]
  rw [show (k == k') = false from beq_eq_false_iff_ne.mpr h]

lemma mapGet_runFold_notMem (cfg : ServerCfg) (steps : List CreateStep)
    (init : Registry) (t : String) (h : ∀ s ∈ steps, stepToken s ≠ t) :
    mapGet (steps.foldl (fun st s => mapSet st (stepToken s) (stepRecord cfg s)) init) t
      = mapGet init t := by
  induction steps generalizing init with
  | nil => rfl
  | cons a rest ih =>
    rw [List.foldl_cons, ih _ (fun s hs => h s (List.mem_cons_of_mem a hs))]
    exact mapGet_mapSet_other init (stepRecord cfg a) (h a (List.mem_cons_self a rest))

lemma mapGet_runFold_mem (cfg : ServerCfg) (steps : List CreateStep)
    (init : Registry) (s : CreateStep) (hs : s ∈ steps)
    (hnd : steps.Pairwise (fun a b => stepToken a ≠ stepToken b)) :
    mapGet (steps.foldl (fun st s => mapSet st (stepToken s) (stepRecord cfg s)) init)
      (stepToken s) = some (stepRecord cfg s) := by
  induction steps generalizing init with
  | nil => cases hs
  | cons a rest ih =>
    rw [List.foldl_cons]
    rcases List.mem_cons.mp hs with h | h
    · subst h
      rw [mapGet_runFold_notMem cfg rest _ (stepToken s)
        (fun b hb => (List.pairwise_cons.mp hnd).1 b hb |>.symm)]
      exact mapGet_mapSet_same init (stepToken s) (stepRecord cfg s)
    · exact ih _ h ((List.pairwise_cons.mp hnd).2)

/-- Claim C1 (counterexample): identifier generation has no collision
handling, so a run in which `Math.random` yields the token `"a"` for both
a synthesis create and a simulation create returns the identifiers
`["a", "a"]` — not pairwise distinct — and `Map.set` makes the second
record shadow the first, so the first create's id no longer resolves to
its own record. -/
theorem workspace_ids_distinct_counterexample :
    ([CreateStep.synth "a", CreateStep.sim "a"].map stepToken) = ["a", "a"] ∧
    ¬ ([CreateStep.synth "a", CreateStep.sim "a"].map stepToken).Nodup ∧
    mapGet (runCreates ⟨["tmp"], "17", ["home"]⟩ [CreateStep.synth "a", CreateStep.sim "a"]) "a"
      = some (stepRecord ⟨["tmp"], "17", ["home"]⟩ (CreateStep.sim "a")) ∧
    stepRecord ⟨["tmp"], "17", ["home"]⟩ (CreateStep.sim "a")
      ≠ stepRecord ⟨["tmp"], "17", ["home"]⟩ (CreateStep.synth "a") := by
  refine ⟨rfl, by decide, rfl, by decide⟩

/-- Claim C1 (amended): provided the randomly drawn tokens of a run are
pairwise distinct and no two physical-design-flow creates render the same
`designName_token` directory name, the returned workspace identifiers are
pairwise distinct, every returned id resolves via `get` to exactly the
record created for it for the remainder of the run, and the directories of
distinct creates are pairwise distinct (no record shares its directory
with another). -/
theorem workspace_ids_distinct_amended (cfg : ServerCfg) (steps : List CreateStep)
    (htok : (steps.map stepToken).Nodup)
    (hflow : steps.Pairwise (fun a b => flowClashB a b = false)) :
    (steps.map stepToken).Nodup ∧
    (∀ s ∈ steps, mapGet (runCreates cfg steps) (stepToken s) = some (stepRecord cfg s)) ∧
    steps.Pairwise (fun a b => stepDir cfg a ≠ stepDir cfg b) := by
  have hpw : steps.Pairwise (fun a b => stepToken a ≠ stepToken b) := by
    rw [List.Nodup, List.pairwise_map] at htok
    exact htok
  refine ⟨htok, ?_, ?_⟩
  · intro s hs
    exact mapGet_runFold_mem cfg steps [] s hs hpw
  · exact (hpw.and hflow).imp (fun h => stepDir_ne cfg h.1 h.2)

/-- Witness for the amended C1 at a concrete three-create run (one per
workspace kind) with distinct tokens. -/
theorem workspace_ids_distinct_amended_witness :
    (([CreateStep.synth "a1", CreateStep.sim "b2", CreateStep.flow "counter" "c3"].map
        stepToken).Nodup) ∧
    (∀ s ∈ [CreateStep.synth "a1", CreateStep.sim "b2", CreateStep.flow "counter" "c3"],
      mapGet (runCreates ⟨["tmp"], "17", ["home"]⟩
          [CreateStep.synth "a1", CreateStep.sim "b2", CreateStep.flow "counter" "c3"])
        (stepToken s) = some (stepRecord ⟨["tmp"], "17", ["home"]⟩ s)) ∧
    ([CreateStep.synth "a1", CreateStep.sim "b2", CreateStep.flow "counter" "c3"].Pairwise
      (fun a b => stepDir ⟨["tmp"], "17", ["home"]⟩ a ≠ stepDir ⟨["tmp"], "17", ["home"]⟩ b)) :=
  workspace_ids_distinct_amended ⟨["tmp"], "17", ["home"]⟩
    [CreateStep.synth "a1", CreateStep.sim "b2", CreateStep.flow "counter" "c3"]
    (by decide) (by decide)

/- ## Synthesis driver: `synthesizeVerilog` (src/src/index.ts:147-223) -/

/-- Outcome of an external command launched with the promisified `exec`:
captured `(stdout, stderr)` on a zero exit, or the failure carried by the
rejected promise. -/
inductive ExecFailure where
  | nonzeroExit (stderr : String)
  | other (message : String)
  deriving DecidableEq, Repr

/-- The `error.message` observed in a driver's `catch` block for a failed
`execAsync` of `cmd`: Node's non-zero-exit message carries the captured
stderr; launch failures carry their own message. -/
def failureMessage (cmd : String) : ExecFailure → String
  | .nonzeroExit stderr => execErrorMessage cmd stderr
  | .other m => m

/-- Yosys script templates selected by target technology
(src/src/index.ts:161-191): `ice40` and `xilinx` have dedicated templates,
matched after lowercasing; anything else falls back to the generic one. -/
def synthScript (topModule target : String) : String :=
  if jsToLowerCase target = "ice40" then
    "\nread_verilog design.v\nhierarchy -check -top " ++ topModule ++
      "\nsynth_ice40 -top " ++ topModule ++ "\nwrite_verilog synth_output.v\nstat\n"
  else if jsToLowerCase target = "xilinx" then
    "\nread_verilog design.v\nhierarchy -check -top " ++ topModule ++
      "\nsynth_xilinx -top " ++ topModule ++ "\nwrite_verilog synth_output.v\nstat\n"
  else
    "\nread_verilog design.v\nhierarchy -check -top " ++ topModule ++
      "\nsynth -top " ++ topModule ++
      "\ntechmap\nopt\nwrite_verilog synth_output.v\nstat\n"

/-- Environment of one `synthesizeVerilog` call: the result of the
`yosys -s synth.ys` invocation and of the read-back of
`synth_output.v` (`none` models the rejected `fs.readFile`).  The
`mkdir`/`writeFile` calls are modelled as succeeding; their failure would
take the same catch path as a yosys failure. -/
structure SynthEnv where
  yosys : Except ExecFailure (String × String)
  synthOutput : Option String

/-- The JSON envelope built at src/src/index.ts:209-222.  `none` models a
field that is absent from the serialized object. -/
structure SynthResponse where
  project_id : Option String
  success : Bool
  stdout : Option String
  stderr : Option String
  synthesized_verilog : Option String
  target : Option String
  error : Option String
  deriving DecidableEq, Repr

/-- The yosys command line (src/src/index.ts:197), rendered with the
script path relative to the working directory. -/
def yosysCmd : String := "yosys -s synth.ys"

/-- `synthesizeVerilog`: registers the workspace, writes `design.v` and
the selected script, runs yosys, then best-effort reads
`synth_output.v`, substituting the placeholder string when the file is
absent (src/src/index.ts:202-207).  A rejected exec lands in the catch
block (src/src/index.ts:217-222), whose envelope carries only `success`
and `error`. -/
def synthesizeVerilog (env : SynthEnv) (registry : Registry) (cfg : ServerCfg)
    (token verilogCode topModule target : String) : SynthResponse × Registry :=
  let projectDir := synthProjectDir cfg token
  let registry2 := mapSet registry token ⟨projectDir, "synthesis"⟩
  let _script := synthScript topModule target
  match env.yosys with
  | .error f =>
      ({ project_id := none, success := false, stdout := none, stderr := none,
         synthesized_verilog := none, target := none,
         error := some (failureMessage yosysCmd f) }, registry2)
  | .ok (out, err) =>
      let synthVerilog :=
        match env.synthOutput with
        | some s => s
        | none => "Synthesis output not generated"
      ({ project_id := some token, success := true, stdout := some out,
         stderr := some err, synthesized_verilog := some synthVerilog,
         target := some target, error := none }, registry2)

/- ## Simulation driver: `simulateVerilog` (src/src/index.ts:225-265) -/

/-- Environment of one `simulateVerilog` call: results of the compile
exec and of the run exec. -/
structure SimEnv where
  compile : Except ExecFailure (String × String)
  run : Except ExecFailure (String × String)

/-- The compile command (src/src/index.ts:239). -/
def compileCmd : String := "iverilog -o simulation design.v testbench.v"

/-- The run command (src/src/index.ts:245). -/
def runCmd : String := "./simulation"

/-- The JSON envelope built at src/src/index.ts:250-263. -/
structure SimResponse where
  project_id : Option String
  success : Bool
  compile_stdout : Option String
  compile_stderr : Option String
  sim_stdout : Option String
  sim_stderr : Option String
  note : Option String
  error : Option String
  deriving DecidableEq, Repr

/-- `simulateVerilog`: registers the workspace, writes design and
testbench, then awaits the compile exec and the run exec in sequence.  A
rejection of either lands in the catch block; in particular a compile
rejection reaches it before the run exec is started.  The third component
lists the commands actually handed to the Process Runner, in order. -/
def simulateVerilog (env : SimEnv) (registry : Registry) (cfg : ServerCfg)
    (token verilogCode testbenchCode : String) :
    SimResponse × Registry × List String :=
  let projectDir := simProjectDir cfg token
  let registry2 := mapSet registry token ⟨projectDir, "simulation"⟩
  match env.compile with
  | .error f =>
      ({ project_id := none, success := false, compile_stdout := none,
         compile_stderr := none, sim_stdout := none, sim_stderr := none,
         note := none, error := some (failureMessage compileCmd f) },
       registry2, [compileCmd])
  | .ok (compileOut, compileErr) =>
      match env.run with
      | .error f =>
          ({ project_id := none, success := false, compile_stdout := none,
             compile_stderr := none, sim_stdout := none, sim_stderr := none,
             note := none, error := some (failureMessage runCmd f) },
           registry2, [compileCmd, runCmd])
      | .ok (simOut, simErr) =>
          ({ project_id := some token, success := true,
             compile_stdout := some compileOut, compile_stderr := some compileErr,
             sim_stdout := some simOut, sim_stderr := some simErr,
             note := some ("Use view_waveform with project_id: " ++ token ++
               " to open GTKWave"),
             error := none }, registry2, [compileCmd, runCmd])

/- ## Waveform viewer driver: `viewWaveform` (src/src/index.ts:267-330) -/

/-- Filesystem/toolchain view consumed by one `viewWaveform` call once a
workspace has been resolved: whether `fs.access(vcdPath)` resolves, the
listing of the workspace directory, whether `which gtkwave` succeeds, and
the result of the gtkwave launch exec. -/
structure WaveEnv where
  vcdAccessOk : Bool
  dirListing : List String
  gtkwaveAvailable : Bool
  gtkwaveLaunch : Except ExecFailure Unit

/-- The install guidance literal returned when gtkwave is missing
(src/src/index.ts:301-305). -/
def gtkwaveInstallInstructions : List (String × String) :=
  [("macos", "brew install gtkwave"),
   ("linux", "sudo apt-get install gtkwave"),
   ("windows", "Install GTKWave from http://gtkwave.sourceforge.net/")]

/-- The JSON envelopes built in `viewWaveform`. -/
structure WaveResponse where
  success : Bool
  error : Option String
  available_vcd_files : Option (List String)
  note : Option String
  install_instructions : Option (List (String × String))
  message : Option String
  vcd_file : Option String
  vcd_path : Option (List String)
  project_type : Option String
  deriving DecidableEq, Repr

/-- The not-found envelope of src/src/index.ts:272-275. -/
def waveNotFound (projectId : String) : WaveResponse :=
  { success := false,
    error := some ("Project " ++ projectId ++ " not found. Run a simulation first."),
    available_vcd_files := none, note := none, install_instructions := none,
    message := none, vcd_file := none, vcd_path := none, project_type := none }

/-- `viewWaveform`: resolves the workspace (returning the not-found
envelope before touching any directory), verifies the VCD file, probes for
gtkwave (returning the install guidance if absent), then launches it, with
a launch rejection landing in the.catch envelope. -/
def viewWaveform (env : WaveEnv) (registry : Registry) (projectId vcdFile : String) :
    WaveResponse :=
  match mapGet registry projectId with
  | none => waveNotFound projectId
  | some project =>
    let vcdPath := project.dir ++ [vcdFile]
    if !env.vcdAccessOk then
      let vcdFiles := env.dirListing.filter (fun f => strEndsWith f ".vcd")
      { success := false,
        error := some ("VCD file '" ++ vcdFile ++ "' not found in project " ++ projectId),
        available_vcd_files := some vcdFiles,
        note := some "Make sure your testbench includes $dumpfile() and $dumpvars() commands",
        install_instructions := none, message := none, vcd_file := none,
        vcd_path := none, project_type := none }
    else if !env.gtkwaveAvailable then
      { success := false,
        error := some "GTKWave not found. Please install GTKWave to view waveforms.",
        available_vcd_files := none, note := none,
        install_instructions := some gtkwaveInstallInstructions,
        message := none, vcd_file := none, vcd_path := none, project_type := none }
    else
      match env.gtkwaveLaunch with
      | .error f =>
          { success := false,
            error := some (failureMessage ("gtkwave \"" ++ String.intercalate "/" vcdPath ++ "\" &") f),
            available_vcd_files := none, note := none, install_instructions := none,
            message := none, vcd_file := none, vcd_path := none, project_type := none }
      | .ok _ =>
          { success := true, error := none, available_vcd_files := none, note := none,
            install_instructions := none,
            message := some ("GTKWave launched for project " ++ projectId),
            vcd_file := some vcdFile, vcd_path := some vcdPath,
            project_type := some project.type }

/- ## Layout viewer driver: `viewGds` (src/src/index.ts:508-581) -/

/-- Filesystem/toolchain view consumed by one `viewGds` call once a
workspace has been resolved: the `runs/` listing (`none` models a rejected
`readdir`), the `runs/<latest>/final/gds` listing, per-path
`fs.access` success, and the KLayout launch result. -/
structure GdsEnv where
  runsListing : Option (List String)
  finalGdsListing : Option (List String)
  gdsAccessOk : List String → Bool
  klayoutLaunch : Except ExecFailure Unit

/-- POSIX rendering of a segment path, for messages that embed a path. -/
def pathString (p : List String) : String :=
  String.intercalate "/" p

/-- `basename` of a segment path. -/
def baseName (p : List String) : String :=
  p.getLast?.getD ""

/-- `runs.sort().reverse()[0]` (src/src/index.ts:442, 529, 605): the
lexicographically greatest entry — the "latest" run under the
timestamp-prefixed naming assumption. -/
def latestRunOf (runs : List String) : String :=
  runs.foldl max ""

/-- The JSON envelopes built in `viewGds`. -/
structure GdsResponse where
  success : Bool
  error : Option String
  message : Option String
  gds_file : Option String
  gds_path : Option (List String)
  project_id : Option String
  command_executed : Option String
  deriving DecidableEq, Repr

/-- A `viewGds` failure envelope carrying only an error message. -/
def gdsFailure (msg : String) : GdsResponse :=
  { success := false, error := some msg, message := none, gds_file := none,
    gds_path := none, project_id := none, command_executed := none }

/-- `viewGds`: resolves the workspace (not-found envelope first), then
either uses the caller-supplied GDS filename or auto-discovers one under
`runs/<latest>/final/gds` (a rejected readdir short-circuits to the
"No GDS files found" envelope; an empty discovery leaves the path unset
and yields the "No GDS file found to open." envelope), verifies the file
exists, and launches KLayout. -/
def viewGds (env : GdsEnv) (registry : Registry) (projectId : String)
    (gdsFile : Option String) : GdsResponse :=
  match mapGet registry projectId with
  | none => gdsFailure ("Project " ++ projectId ++ " not found.")
  | some project =>
    let discovered : Except GdsResponse (Option (List String)) :=
      match gdsFile with
      | some f => .ok (some (project.dir ++ [f]))
      | none =>
        match env.runsListing with
        | none => .error (gdsFailure "No GDS files found in project. Run OpenLane flow first.")
        | some runs =>
          if runs.length > 0 then
            let latestRun := latestRunOf runs
            let finalDir := project.dir ++ ["runs", latestRun, "final", "gds"]
            match env.finalGdsListing with
            | none => .error (gdsFailure "No GDS files found in project. Run OpenLane flow first.")
            | some gdsFiles =>
              match (gdsFiles.filter (fun f => strEndsWith f ".gds")).head? with
              | some f => .ok (some (finalDir ++ [f]))
              | none => .ok none
          else .ok none
    match discovered with
    | .error resp => resp
    | .ok none => gdsFailure "No GDS file found to open."
    | .ok (some gdsPath) =>
      if !env.gdsAccessOk gdsPath then
        gdsFailure ("GDS file not found: " ++ pathString gdsPath)
      else
        match env.klayoutLaunch with
        | .error f =>
            gdsFailure (failureMessage ("open -a KLayout \"" ++ pathString gdsPath ++ "\"") f)
        | .ok _ =>
            { success := true, error := none,
              message := some "KLayout launched with GDS file",
              gds_file := some (baseName gdsPath), gds_path := some gdsPath,
              project_id := some projectId,
              command_executed :=
                some ("open -a KLayout \"" ++ pathString gdsPath ++ "\"") }

/- ## Report-read driver: `readOpenlaneReports` (src/src/index.ts:584-709) -/

/-- The bounded preview applied to the captured flow output
(src/src/index.ts:489-490): texts longer than 2000 characters are cut at
2000 and get the explicit `...(truncated)` marker appended. -/
def openlanePreview (s : String) : String :=
  if s.length > 2000 then jsSubstring s 2000 ++ "...(truncated)" else s

/-- Uninterpreted JavaScript regex/number parsing used for metric
extraction (src/src/index.ts:651-672): the cell-count pattern with
`parseInt`, and the worst-negative-slack pattern with `parseFloat` (the
float abstracted to an integer).  No verified property depends on their
semantics, so they are parameters of the model. -/
structure RegexEnv where
  cellCount : String → Option Int
  wns : String → Option Int

/-- Filesystem view of a flow workspace directory as consumed by
`readOpenlaneReports`: the `runs/` listing (`none` models the rejected
`readdir` of a missing directory), and the files read underneath the
latest run — the only run the code ever touches. -/
structure FlowFS where
  runsListing : Option (List String)
  synthReport : Option String
  routingListing : Option (List String)
  routingFile : String → Option String
  finalSummary : Option String

/-- The `ppa_metrics` object (src/src/index.ts:621-627); fields the code
never assigns on a path stay `none` (JSON `null`). -/
structure PpaMetrics where
  power_mw : Option Int
  max_frequency_mhz : Option Int
  total_cells : Option Int
  logic_area_um2 : Option Int
  timing_slack_ns : Option Int
  deriving DecidableEq, Repr

/-- The `design_status` object (src/src/index.ts:628-632). -/
structure DesignStatus where
  synthesis_complete : Bool
  timing_clean : Bool
  routing_complete : Bool
  deriving DecidableEq, Repr

/-- The `reports` object: bounded excerpts of the report files. -/
structure ReportExcerpts where
  synthesis : Option String
  timing : Option String
  final_summary : Option String
  deriving DecidableEq, Repr

/-- The success envelope of `readOpenlaneReports`
(src/src/index.ts:617-701). -/
structure ReportSummary where
  project_id : String
  run_id : String
  success : Bool
  ppa_metrics : PpaMetrics
  design_status : DesignStatus
  reports : ReportExcerpts
  summary_status : String
  summary_issues : List String
  deriving DecidableEq, Repr

/-- A `readOpenlaneReports` response: a `{success: false, error}` envelope
or the summary object (whose own `success` field the success path always
sets to `true`). -/
inductive ReportResponse where
  | err (error : String)
  | ok (r : ReportSummary)
  deriving DecidableEq, Repr

/-- The timing-report loop (src/src/index.ts:662-677): the first file in
the routing directory whose name includes `sta` or `timing` and whose
contents can be read. -/
def findTimingReport (fs : FlowFS) : List String → Option String
  | [] => none
  | f :: rest =>
    if (decide ("sta".data <:+: f.data) || decide ("timing".data <:+: f.data)) then
      match fs.routingFile f with
      | some content => some content
      | none => findTimingReport fs rest
    else findTimingReport fs rest

/-- `readOpenlaneReports`: resolves the workspace (not-found envelope
before any directory access, and with the record's `type` never
inspected), distinguishes a missing `runs/` directory from an empty one,
selects the latest run, then builds the summary from whichever reports
exist, each excerpt bounded by `substring` with no truncation marker. -/
def readOpenlaneReports (env : RegexEnv) (registry : Registry) (projectId : String)
    (fsOf : List String → FlowFS) : ReportResponse :=
  match mapGet registry projectId with
  | none => .err ("Project " ++ projectId ++ " not found.")
  | some project =>
    let fs := fsOf project.dir
    match fs.runsListing with
    | none => .err "No runs directory found. Run OpenLane flow first."
    | some runs =>
      if runs.length = 0 then .err "No OpenLane runs found. Run OpenLane flow first."
      else
        let latestRun := latestRunOf runs
        let synthesisComplete := fs.synthReport.isSome
        let synthesisExcerpt := fs.synthReport.map (fun rpt => jsSubstring rpt 2000)
        let totalCells := fs.synthReport.bind env.cellCount
        let timingContent :=
          match fs.routingListing with
          | some files => findTimingReport fs files
          | none => none
        let timingExcerpt := timingContent.map (fun rpt => jsSubstring rpt 2000)
        let wnsVal := timingContent.bind env.wns
        let timingSlack := wnsVal
        let timingClean :=
          match wnsVal with
          | some w => decide (0 ≤ w)
          | none => false
        let routingComplete := fs.finalSummary.isSome
        let finalExcerpt := fs.finalSummary.map (fun rpt => jsSubstring rpt 3000)
        let issues :=
          (if !synthesisComplete then ["Synthesis incomplete"] else []) ++
          (if !timingClean then ["Timing violations detected"] else []) ++
          (if !routingComplete then ["Routing incomplete"] else [])
        .ok
          { project_id := projectId
            run_id := latestRun
            success := true
            ppa_metrics :=
              { power_mw := none, max_frequency_mhz := none,
                total_cells := totalCells, logic_area_um2 := none,
                timing_slack_ns := timingSlack }
            design_status :=
              { synthesis_complete := synthesisComplete,
                timing_clean := timingClean,
                routing_complete := routingComplete }
            reports :=
              { synthesis := synthesisExcerpt, timing := timingExcerpt,
                final_summary := finalExcerpt }
            summary_status := if issues.length = 0 then "SUCCESS" else "ISSUES_FOUND"
            summary_issues := issues }

/- ## Tool-call dispatch (src/src/index.ts:863-949) -/

/-- The driver invocation a validated tool call is dispatched to, with the
validated argument values.  The handler's catch block
(src/src/index.ts:944-948) rethrows any `McpError`, so a validation or
unknown-tool error propagates as a protocol-level failure
(`Except.error`), never as a `{success: false}` tool envelope. -/
inductive ToolResult where
  | synthesizeCall (verilogCode topModule target : String)
  | simulateCall (verilogCode testbenchCode : String)
  | viewWaveformCall (projectId vcdFile : String)
  | runOpenlaneCall (verilogCode designName clockPort : String)
      (clockPeriod : Int) (openInKlayout : Bool)
  | viewGdsCall (projectId : String) (gdsFile : Option String)
  | readReportsCall (projectId : String) (reportType : Option String)
  deriving DecidableEq, Repr

/-- The `CallToolRequestSchema` handler's dispatch: validates the required
string parameters of the named tool in source order, applies the optional
parameters' defaults, and hands the values to the driver; an unknown name
raises `MethodNotFound` (src/src/index.ts:941-942). -/
def handleToolCall (name : String) (args : Args) : Except McpError ToolResult :=
  if name = "synthesize_verilog" then
    match validateRequiredString args "verilog_code" name with
    | .error e => .error e
    | .ok verilogCode =>
      match validateRequiredString args "top_module" name with
      | .error e => .error e
      | .ok topModule =>
        .ok (.synthesizeCall verilogCode topModule (getStringProperty args "target" "generic"))
  else if name = "simulate_verilog" then
    match validateRequiredString args "verilog_code" name with
    | .error e => .error e
    | .ok verilogCode =>
      match validateRequiredString args "testbench_code" name with
      | .error e => .error e
      | .ok testbenchCode => .ok (.simulateCall verilogCode testbenchCode)
  else if name = "view_waveform" then
    match validateRequiredString args "project_id" name with
    | .error e => .error e
    | .ok projectId =>
      .ok (.viewWaveformCall projectId (getStringProperty args "vcd_file" "output.vcd"))
  else if name = "run_openlane" then
    match validateRequiredString args "verilog_code" name with
    | .error e => .error e
    | .ok verilogCode =>
      match validateRequiredString args "design_name" name with
      | .error e => .error e
      | .ok designName =>
        let clockPort := getStringProperty args "clock_port" "clk"
        let clockPeriod := getNumberProperty args "clock_period" 10
        let openInKlayout :=
          if jsGet args "open_in_klayout" = some (.boolean false) then false else true
        .ok (.runOpenlaneCall verilogCode designName clockPort clockPeriod openInKlayout)
  else if name = "view_gds" then
    match validateRequiredString args "project_id" name with
    | .error e => .error e
    | .ok projectId =>
      let gdsFile := getStringProperty args "gds_file" ""
      .ok (.viewGdsCall projectId (if gdsFile = "" then none else some gdsFile))
  else if name = "read_openlane_reports" then
    match validateRequiredString args "project_id" name with
    | .error e => .error e
    | .ok projectId =>
      let reportType := getStringProperty args "report_type" ""
      .ok (.readReportsCall projectId (if reportType = "" then none else some reportType))
  else
    .error ⟨.methodNotFound, "Tool not found: " ++ name⟩

/- ## Shared lemmas about message containment -/

lemma strContains_append_right (a b needle : String) (h : strContains b needle) :
    strContains (a ++ b) needle := by
  obtain ⟨pre, post, hp⟩ := h
  refine ⟨a.data ++ pre, post, ?_⟩
  rw [String.data_append, hp]
  simp [List.append_assoc]

lemma notFoundMsg_contains (projectId suffix : String)
    (h : strContains suffix "not found") :
    strContains ("Project " ++ projectId ++ suffix) projectId ∧
    strContains ("Project " ++ projectId ++ suffix) "not found" := by
  constructor
  · exact strContains_of_append "Project " projectId suffix
  · exact strContains_append_right ("Project " ++ projectId) suffix "not found" h

/- ## Claim theorems -/

/-- Claim C3: a Flow Driver call (view-waveform, view-layout, report-read)
whose workspace identifier does not resolve in the registry returns the
structured `{success: false}` envelope naming that identifier as not
found.  The filesystem/toolchain environment of each driver is universally
quantified and the response is a constant in it, so no directory access is
attempted (the response does not depend on anything read from disk). -/
theorem unknown_workspace_rejected (registry : Registry) (projectId : String)
    (h : mapGet registry projectId = none) :
    (∀ (wenv : WaveEnv) (vcdFile : String),
      viewWaveform wenv registry projectId vcdFile = waveNotFound projectId) ∧
    (∀ (genv : GdsEnv) (gdsFile : Option String),
      viewGds genv registry projectId gdsFile =
        gdsFailure ("Project " ++ projectId ++ " not found.")) ∧
    (∀ (renv : RegexEnv) (fsOf : List String → FlowFS),
      readOpenlaneReports renv registry projectId fsOf =
        .err ("Project " ++ projectId ++ " not found.")) ∧
    (waveNotFound projectId).success = false ∧
    (gdsFailure ("Project " ++ projectId ++ " not found.")).success = false ∧
    strContains ("Project " ++ projectId ++ " not found. Run a simulation first.") projectId ∧
    strContains ("Project " ++ projectId ++ " not found. Run a simulation first.") "not found" ∧
    strContains ("Project " ++ projectId ++ " not found.") projectId ∧
    strContains ("Project " ++ projectId ++ " not found.") "not found" := by
  refine ⟨?_, ?_, ?_, rfl, rfl, ?_, ?_, ?_, ?_⟩
  · intro wenv vcdFile
    simp [viewWaveform, h]
  · intro genv gdsFile
    simp [viewGds, h]
  · intro renv fsOf
    simp [readOpenlaneReports, h]
  · exact (notFoundMsg_contains projectId " not found. Run a simulation first."
      ⟨" ".data, ". Run a simulation first.".data, by decide⟩).1
  · exact (notFoundMsg_contains projectId " not found. Run a simulation first."
      ⟨" ".data, ". Run a simulation first.".data, by decide⟩).2
  · exact (notFoundMsg_contains projectId " not found."
      ⟨" ".data, ".".data, by decide⟩).1
  · exact (notFoundMsg_contains projectId " not found."
      ⟨" ".data, ".".data, by decide⟩).2

/-- Witness for C3 at a concrete unknown identifier against an empty
registry. -/
theorem unknown_workspace_rejected_witness :
    (∀ (wenv : WaveEnv) (vcdFile : String),
      viewWaveform wenv [] "zzz9" vcdFile = waveNotFound "zzz9") ∧
    (∀ (renv : RegexEnv) (fsOf : List String → FlowFS),
      readOpenlaneReports renv [] "zzz9" fsOf = .err ("Project " ++ "zzz9" ++ " not found.")) := by
  have h := unknown_workspace_rejected [] "zzz9" rfl
  exact ⟨h.1, h.2.2.1⟩

/-- Claim C4: a simulation request whose compile exec rejects with a
non-zero exit returns `{success: false}` with the compiler's stderr
embedded in the error message, and the run exec is never started; in
every case the Process Runner sees the compile command first and the
run command, if at all, second. -/
theorem compile_failure_short_circuits (env : SimEnv) (registry : Registry)
    (cfg : ServerCfg) (token verilogCode testbenchCode : String) :
    (∀ stderrText, env.compile = .error (.nonzeroExit stderrText) →
      (simulateVerilog env registry cfg token verilogCode testbenchCode).1.success = false ∧
      (simulateVerilog env registry cfg token verilogCode testbenchCode).1.error =
        some (execErrorMessage compileCmd stderrText) ∧
      strContains (execErrorMessage compileCmd stderrText) stderrText ∧
      (simulateVerilog env registry cfg token verilogCode testbenchCode).2.2 = [compileCmd]) ∧
    ((simulateVerilog env registry cfg token verilogCode testbenchCode).2.2 = [compileCmd] ∨
      (simulateVerilog env registry cfg token verilogCode testbenchCode).2.2 =
        [compileCmd, runCmd]) := by
  constructor
  · intro stderrText hc
    refine ⟨?_, ?_, ?_, ?_⟩ <;>
      first
        | simp [simulateVerilog, hc, failureMessage]
        | exact ⟨("Command failed: " ++ compileCmd ++ "\n").data, [], by
            simp [execErrorMessage, String.data_append, List.append_assoc]⟩
  · cases hc : env.compile with
    | error f => left; simp [simulateVerilog, hc]
    | ok p =>
      right
      cases hr : env.run with
      | error f => simp [simulateVerilog, hc, hr]
      | ok q => simp [simulateVerilog, hc, hr]

/-- Witness for C4: a concrete compile failure (port-width mismatch
diagnostic) short-circuits before `./simulation` runs. -/
theorem compile_failure_short_circuits_witness :
    (simulateVerilog ⟨.error (.nonzeroExit "testbench.v:9: error: port widths differ"),
        .ok ("", "")⟩ [] ⟨["tmp"], "17", ["home"]⟩ "a1" "module m(); endmodule"
        "module tb(); endmodule").1.success = false ∧
    (simulateVerilog ⟨.error (.nonzeroExit "testbench.v:9: error: port widths differ"),
        .ok ("", "")⟩ [] ⟨["tmp"], "17", ["home"]⟩ "a1" "module m(); endmodule"
        "module tb(); endmodule").2.2 = [compileCmd] := by
  have h := (compile_failure_short_circuits
    ⟨.error (.nonzeroExit "testbench.v:9: error: port widths differ"), .ok ("", "")⟩
    [] ⟨["tmp"], "17", ["home"]⟩ "a1" "module m(); endmodule"
    "module tb(); endmodule").1 "testbench.v:9: error: port widths differ" rfl
  exact ⟨h.1, h.2.2.2⟩

/-- Claim C5 (counterexample): when the yosys exec rejects (e.g. a syntax
error gives a non-zero exit), the catch block's envelope carries only
`success` and `error` — the technology field and the synthesized-output
field are absent, refuting "neither field is ever absent from the
envelope" for a request with technology `"ice40"`. -/
theorem synth_envelope_counterexample :
    (synthesizeVerilog ⟨.error (.nonzeroExit "ERROR: syntax error in line 1"), none⟩
      [] ⟨["tmp"], "17", ["home"]⟩ "tok1" "module counter(); endmodule" "counter"
      "ice40").1.target = none ∧
    (synthesizeVerilog ⟨.error (.nonzeroExit "ERROR: syntax error in line 1"), none⟩
      [] ⟨["tmp"], "17", ["home"]⟩ "tok1" "module counter(); endmodule" "counter"
      "ice40").1.synthesized_verilog = none ∧
    (synthesizeVerilog ⟨.error (.nonzeroExit "ERROR: syntax error in line 1"), none⟩
      [] ⟨["tmp"], "17", ["home"]⟩ "tok1" "module counter(); endmodule" "counter"
      "ice40").1.success = false :=
  ⟨rfl, rfl, rfl⟩

/-- Claim C5 (amended): whenever the yosys invocation itself returns
normally, the envelope contains the technology field echoing the
requested technology and the synthesized-output field — the read-back
netlist text, or the literal placeholder `"Synthesis output not
generated"` when the output file is absent — and the response is a
success either way (absence of the file alone never makes it a failure);
when the yosys invocation rejects, the catch envelope carries only
`success: false` and the error message. -/
theorem synth_envelope_amended (env : SynthEnv) (registry : Registry) (cfg : ServerCfg)
    (token verilogCode topModule target : String) :
    (∀ out err, env.yosys = .ok (out, err) →
      (synthesizeVerilog env registry cfg token verilogCode topModule target).1.target =
        some target ∧
      (synthesizeVerilog env registry cfg token verilogCode topModule target).1.success =
        true ∧
      ((env.synthOutput = none ∧
        (synthesizeVerilog env registry cfg token verilogCode topModule
          target).1.synthesized_verilog = some "Synthesis output not generated") ∨
       (∃ s, env.synthOutput = some s ∧
        (synthesizeVerilog env registry cfg token verilogCode topModule
          target).1.synthesized_verilog = some s))) ∧
    (∀ f, env.yosys = .error f →
      (synthesizeVerilog env registry cfg token verilogCode topModule target).1 =
        { project_id := none, success := false, stdout := none, stderr := none,
          synthesized_verilog := none, target := none,
          error := some (failureMessage yosysCmd f) }) := by
  constructor
  · intro out err hy
    refine ⟨by simp [synthesizeVerilog, hy], by simp [synthesizeVerilog, hy], ?_⟩
    cases hso : env.synthOutput with
    | none => left; exact ⟨rfl, by simp [synthesizeVerilog, hy, hso]⟩
    | some s => right; exact ⟨s, rfl, by simp [synthesizeVerilog, hy, hso]⟩
  · intro f hy
    simp [synthesizeVerilog, hy]

/-- Witness for the amended C5: a concrete `"ice40"` request whose yosys
run succeeds but produces no `synth_output.v` still yields a success
envelope echoing `"ice40"` and carrying the placeholder. -/
theorem synth_envelope_amended_witness :
    (synthesizeVerilog ⟨.ok ("=== counter ===", ""), none⟩ [] ⟨["tmp"], "17", ["home"]⟩
      "tok1" "module counter(); endmodule" "counter" "ice40").1.target = some "ice40" ∧
    (synthesizeVerilog ⟨.ok ("=== counter ===", ""), none⟩ [] ⟨["tmp"], "17", ["home"]⟩
      "tok1" "module counter(); endmodule" "counter" "ice40").1.success = true := by
  have h := (synth_envelope_amended ⟨.ok ("=== counter ===", ""), none⟩ []
    ⟨["tmp"], "17", ["home"]⟩ "tok1" "module counter(); endmodule" "counter" "ice40").1
    "=== counter ===" "" rfl
  exact ⟨h.1, h.2.1⟩

/- ## Report-read claim fixtures and projections -/

/-- Whether a report-read response took the success path. -/
def ReportResponse.isOk : ReportResponse → Bool
  | .ok _ => true
  | .err _ => false

/-- The `success` field of the summary, `false` for a failure envelope. -/
def ReportResponse.okSuccess : ReportResponse → Bool
  | .ok r => r.success
  | .err _ => false

/-- The synthesis report excerpt carried by the response, if any. -/
def ReportResponse.synthExcerpt : ReportResponse → Option String
  | .ok r => r.reports.synthesis
  | .err _ => none

/-- The final-summary excerpt carried by the response, if any. -/
def ReportResponse.finalExcerpt : ReportResponse → Option String
  | .ok r => r.reports.final_summary
  | .err _ => none

/-- A regex environment whose patterns never match; the claims below do
not depend on pattern semantics. -/
def trivRegexEnv : RegexEnv := ⟨fun _ => none, fun _ => none⟩

/-- A registered flow workspace used by the concrete scenarios. -/
def flowProj : Project := ⟨["home", "openlane-projects", "counter_c3"], "openlane"⟩

/-- A one-entry registry holding the flow workspace under id `"p1"`. -/
def demoRegistry : Registry := [("p1", flowProj)]

/-- Workspace directory without a `runs/` subdirectory. -/
def fsRunsMissing : FlowFS := ⟨none, none, none, fun _ => none, none⟩

/-- Workspace directory whose `runs/` exists but is empty. -/
def fsRunsEmpty : FlowFS := ⟨some [], none, none, fun _ => none, none⟩

/-- Workspace directory with one run and no readable reports. -/
def fsOneRun : FlowFS := ⟨some ["RUN_1"], none, none, fun _ => none, none⟩

/-- Claim C7: against an existing workspace, a missing `runs/` directory
and an existing-but-empty `runs/` directory are reported through two
distinct `{success: false}` messages, both telling the caller to run the
flow first. -/
theorem report_read_distinct_messages (env : RegexEnv) (registry : Registry)
    (projectId : String) (fsOf : List String → FlowFS) (project : Project)
    (hp : mapGet registry projectId = some project) :
    ((fsOf project.dir).runsListing = none →
      readOpenlaneReports env registry projectId fsOf =
        .err "No runs directory found. Run OpenLane flow first.") ∧
    ((fsOf project.dir).runsListing = some [] →
      readOpenlaneReports env registry projectId fsOf =
        .err "No OpenLane runs found. Run OpenLane flow first.") ∧
    ("No runs directory found. Run OpenLane flow first." ≠
      "No OpenLane runs found. Run OpenLane flow first.") := by
  refine ⟨?_, ?_, by decide⟩
  · intro hr
    simp [readOpenlaneReports, hp, hr]
  · intro hr
    simp [readOpenlaneReports, hp, hr]

/-- Witness for C7 at the concrete registry: the two filesystem states
produce the two distinct messages. -/
theorem report_read_distinct_messages_witness :
    readOpenlaneReports trivRegexEnv demoRegistry "p1" (fun _ => fsRunsMissing) =
      .err "No runs directory found. Run OpenLane flow first." ∧
    readOpenlaneReports trivRegexEnv demoRegistry "p1" (fun _ => fsRunsEmpty) =
      .err "No OpenLane runs found. Run OpenLane flow first." :=
  ⟨(report_read_distinct_messages trivRegexEnv demoRegistry "p1" (fun _ => fsRunsMissing)
      flowProj rfl).1 rfl,
   (report_read_distinct_messages trivRegexEnv demoRegistry "p1" (fun _ => fsRunsEmpty)
      flowProj rfl).2.1 rfl⟩

/-- A registered simulation workspace, for the C8 counterexample. -/
def simOnlyProj : Project := ⟨["tmp", "eda_mcp_17", "sim_project_a1"], "simulation"⟩

/-- A one-entry registry holding the simulation workspace under id
`"a1"`. -/
def simOnlyRegistry : Registry := [("a1", simOnlyProj)]

/-- Claim C8 (counterexample): `readOpenlaneReports` never inspects the
record's `type`.  A workspace registered by the simulation driver
(`type = "simulation"`) whose directory happens to contain a non-empty
`runs/` subdirectory proceeds to a successful report summary, refuting
"requires a Workspace Record of physical-design-flow kind". -/
theorem report_read_kind_counterexample :
    mapGet simOnlyRegistry "a1" = some simOnlyProj ∧
    simOnlyProj.type = "simulation" ∧
    (readOpenlaneReports trivRegexEnv simOnlyRegistry "a1" (fun _ => fsOneRun)).isOk
      = true ∧
    (readOpenlaneReports trivRegexEnv simOnlyRegistry "a1" (fun _ => fsOneRun)).okSuccess
      = true := by
  refine ⟨rfl, rfl, ?_, ?_⟩ <;> decide

/-- Claim C8 (amended): the report-read driver requires only that the
identifier resolve to some Workspace Record; the record's kind is never
inspected, so whenever the resolved directory has a non-empty `runs/`
subdirectory the call proceeds to a successful report summary, whatever
the record's `type` — and more generally the response depends on the
record only through its directory. -/
theorem report_read_kind_amended (env : RegexEnv) (registry : Registry)
    (projectId : String) (fsOf : List String → FlowFS) (project : Project)
    (r : String) (rs : List String)
    (hp : mapGet registry projectId = some project)
    (hr : (fsOf project.dir).runsListing = some (r :: rs)) :
    (readOpenlaneReports env registry projectId fsOf).isOk = true ∧
    (readOpenlaneReports env registry projectId fsOf).okSuccess = true ∧
    (∀ (d : List String) (t1 t2 : String),
      readOpenlaneReports env [(projectId, ⟨d, t1⟩)] projectId fsOf =
        readOpenlaneReports env [(projectId, ⟨d, t2⟩)] projectId fsOf) := by
  refine ⟨?_, ?_, ?_⟩
  · simp [readOpenlaneReports, hp, hr, ReportResponse.isOk]
  · simp [readOpenlaneReports, hp, hr, ReportResponse.okSuccess]
  · intro d t1 t2
    simp [readOpenlaneReports, mapGet, List.find?]

/-- Witness for the amended C8: the simulation-kind workspace with one
run resolves and yields a successful summary. -/
theorem report_read_kind_amended_witness :
    (readOpenlaneReports trivRegexEnv simOnlyRegistry "a1" (fun _ => fsOneRun)).isOk
      = true ∧
    (readOpenlaneReports trivRegexEnv simOnlyRegistry "a1" (fun _ => fsOneRun)).okSuccess
      = true := by
  have h := report_read_kind_amended trivRegexEnv simOnlyRegistry "a1" (fun _ => fsOneRun)
    simOnlyProj "RUN_1" [] rfl rfl
  exact ⟨h.1, h.2.1⟩

/-- A synthesis report of 2001 characters, one past the preview bound. -/
def bigReport : String := String.mk (List.replicate 2001 'a')

/-- Workspace directory with one run whose synthesis report is
`bigReport`. -/
def fsBigSynth : FlowFS := ⟨some ["RUN_1"], some bigReport, none, fun _ => none, none⟩

/-- Claim C9 (counterexample): the report-read driver truncates the
synthesis excerpt with a bare `substring(0, 2000)` — for an underlying
report of 2001 characters the field placed in the envelope is the first
2000 characters with no `...(truncated)` marker appended, refuting "an
explicit truncation marker is appended ... for every such field". -/
theorem truncation_marker_counterexample :
    bigReport.length > 2000 ∧
    (readOpenlaneReports trivRegexEnv demoRegistry "p1" (fun _ => fsBigSynth)).synthExcerpt
      = some (jsSubstring bigReport 2000) ∧
    (jsSubstring bigReport 2000).length = 2000 ∧
    strEndsWith (jsSubstring bigReport 2000) "...(truncated)" = false := by
  refine ⟨?_, rfl, ?_, ?_⟩
  · show (List.replicate 2001 'a').length > 2000
    simp
  · show ((List.replicate 2001 'a').take 2000).length = 2000
    simp
  · decide

/-- Claim C9 (amended): only the physical-design-flow driver's captured
stdout/stderr previews append the `...(truncated)` marker (texts over
2000 characters are cut at 2000 and marked); the report-read excerpts are
cut at 2000 characters (synthesis report) and 3000 characters (final
summary) by a bare `substring` with no marker; and the synthesis driver
returns its captured streams untruncated whatever their length. -/
theorem truncation_amended (s : String) (env : RegexEnv) (registry : Registry)
    (projectId : String) (fsOf : List String → FlowFS) (project : Project)
    (r : String) (rs : List String)
    (hp : mapGet registry projectId = some project)
    (hr : (fsOf project.dir).runsListing = some (r :: rs)) :
    (s.length ≤ 2000 → openlanePreview s = s) ∧
    (s.length > 2000 →
      openlanePreview s = jsSubstring s 2000 ++ "...(truncated)" ∧
      strEndsWith (openlanePreview s) "...(truncated)" = true) ∧
    (readOpenlaneReports env registry projectId fsOf).synthExcerpt =
      (fsOf project.dir).synthReport.map (fun rpt => jsSubstring rpt 2000) ∧
    (readOpenlaneReports env registry projectId fsOf).finalExcerpt =
      (fsOf project.dir).finalSummary.map (fun rpt => jsSubstring rpt 3000) ∧
    (∀ (senv : SynthEnv) (cfg : ServerCfg) (token verilogCode topModule target out err :
        String), senv.yosys = .ok (out, err) →
      (synthesizeVerilog senv registry cfg token verilogCode topModule target).1.stdout =
        some out ∧
      (synthesizeVerilog senv registry cfg token verilogCode topModule target).1.stderr =
        some err) := by
  refine ⟨?_, ?_, ?_, ?_, ?_⟩
  · intro hs
    simp [openlanePreview, Nat.not_lt.mpr hs]
  · intro hs
    have hgt : s.length > 2000 := hs
    constructor
    · simp [openlanePreview, hgt]
    · simp only [openlanePreview, hgt, if_pos]
      unfold strEndsWith
      rw [String.data_append]
      simp [List.isSuffixOf_iff_suffix]
  · simp [readOpenlaneReports, hp, hr, ReportResponse.synthExcerpt]
  · simp [readOpenlaneReports, hp, hr, ReportResponse.finalExcerpt]
  · intro senv cfg token verilogCode topModule target out err hy
    constructor <;> simp [synthesizeVerilog, hy]

/-- Witness for the amended C9: the 2001-character report exceeds the
bound, the flow preview marks it, and the report-read excerpt is a bare
2000-character cut. -/
theorem truncation_amended_witness :
    (bigReport.length > 2000 →
      openlanePreview bigReport = jsSubstring bigReport 2000 ++ "...(truncated)" ∧
      strEndsWith (openlanePreview bigReport) "...(truncated)" = true) ∧
    (readOpenlaneReports trivRegexEnv demoRegistry "p1" (fun _ => fsBigSynth)).synthExcerpt
      = fsBigSynth.synthReport.map (fun rpt => jsSubstring rpt 2000) := by
  have h := truncation_amended bigReport trivRegexEnv demoRegistry "p1"
    (fun _ => fsBigSynth) flowProj "RUN_1" [] rfl rfl
  exact ⟨h.2.1, h.2.2.1⟩

/-- Claim C6: for each tool, a request that omits (or, equivalently to
`validateRequiredString`, leaves empty) a required string parameter is
answered by a thrown `McpError` with code `InvalidParams` whose message
names both the parameter and the tool — a protocol-level failure
(`Except.error`, rethrown by the handler's catch block at
src/src/index.ts:945), never a `{success: false}` tool envelope and never
a generic failure.  Parameters are validated in source order, so the
conjuncts for a second required parameter assume the first is present. -/
theorem missing_required_param (args : Args) :
    (getStringProperty args "verilog_code" "" = "" →
      handleToolCall "synthesize_verilog" args =
        .error ⟨.invalidParams, missingParamMessage "verilog_code" "synthesize_verilog"⟩) ∧
    (getStringProperty args "verilog_code" "" ≠ "" →
      getStringProperty args "top_module" "" = "" →
      handleToolCall "synthesize_verilog" args =
        .error ⟨.invalidParams, missingParamMessage "top_module" "synthesize_verilog"⟩) ∧
    (getStringProperty args "verilog_code" "" = "" →
      handleToolCall "simulate_verilog" args =
        .error ⟨.invalidParams, missingParamMessage "verilog_code" "simulate_verilog"⟩) ∧
    (getStringProperty args "verilog_code" "" ≠ "" →
      getStringProperty args "testbench_code" "" = "" →
      handleToolCall "simulate_verilog" args =
        .error ⟨.invalidParams, missingParamMessage "testbench_code" "simulate_verilog"⟩) ∧
    (getStringProperty args "project_id" "" = "" →
      handleToolCall "view_waveform" args =
        .error ⟨.invalidParams, missingParamMessage "project_id" "view_waveform"⟩) ∧
    (getStringProperty args "verilog_code" "" = "" →
      handleToolCall "run_openlane" args =
        .error ⟨.invalidParams, missingParamMessage "verilog_code" "run_openlane"⟩) ∧
    (getStringProperty args "verilog_code" "" ≠ "" →
      getStringProperty args "design_name" "" = "" →
      handleToolCall "run_openlane" args =
        .error ⟨.invalidParams, missingParamMessage "design_name" "run_openlane"⟩) ∧
    (getStringProperty args "project_id" "" = "" →
      handleToolCall "view_gds" args =
        .error ⟨.invalidParams, missingParamMessage "project_id" "view_gds"⟩) ∧
    (getStringProperty args "project_id" "" = "" →
      handleToolCall "read_openlane_reports" args =
        .error ⟨.invalidParams, missingParamMessage "project_id" "read_openlane_reports"⟩) ∧
    (∀ key toolName : String,
      strContains (missingParamMessage key toolName) key ∧
      strContains (missingParamMessage key toolName) toolName) := by
  refine ⟨?_, ?_, ?_, ?_, ?_, ?_, ?_, ?_, ?_, ?_⟩
  · intro h
    unfold handleToolCall
    rw [if_pos rfl]
    simp [validateRequiredString, h]
  · intro h1 h2
    unfold handleToolCall
    rw [if_pos rfl]
    simp [validateRequiredString, h1, h2]
  · intro h
    unfold handleToolCall
    rw [if_neg (by decide), if_pos rfl]
    simp [validateRequiredString, h]
  · intro h1 h2
    unfold handleToolCall
    rw [if_neg (by decide), if_pos rfl]
    simp [validateRequiredString, h1, h2]
  · intro h
    unfold handleToolCall
    rw [if_neg (by decide), if_neg (by decide), if_pos rfl]
    simp [validateRequiredString, h]
  · intro h
    unfold handleToolCall
    rw [if_neg (by decide), if_neg (by decide), if_neg (by decide), if_pos rfl]
    simp [validateRequiredString, h]
  · intro h1 h2
    unfold handleToolCall
    rw [if_neg (by decide), if_neg (by decide), if_neg (by decide), if_pos rfl]
    simp [validateRequiredString, h1, h2]
  · intro h
    unfold handleToolCall
    rw [if_neg (by decide), if_neg (by decide), if_neg (by decide), if_neg (by decide),
      if_pos rfl]
    simp [validateRequiredString, h]
  · intro h
    unfold handleToolCall
    rw [if_neg (by decide), if_neg (by decide), if_neg (by decide), if_neg (by decide),
      if_neg (by decide), if_pos rfl]
    simp [validateRequiredString, h]
  · intro key toolName
    constructor
    · refine ⟨"Missing required parameter '".data, ("' for tool '" ++ toolName ++ "'").data, ?_⟩
      simp [missingParamMessage, String.data_append, List.append_assoc]
    · refine ⟨("Missing required parameter '" ++ key ++ "' for tool '").data, "'".data, ?_⟩
      simp [missingParamMessage, String.data_append, List.append_assoc]

/-- Witness for C6: an empty arguments object for `synthesize_verilog`
is rejected with the validation error naming `verilog_code` and the
tool. -/
theorem missing_required_param_witness :
    handleToolCall "synthesize_verilog" [] =
      .error ⟨.invalidParams, missingParamMessage "verilog_code" "synthesize_verilog"⟩ :=
  (missing_required_param []).1 rfl

/-- Claim C10: a required string parameter that is supplied as the empty
string, or supplied with a non-string value (a number, a boolean, null),
is rejected by `validateRequiredString` with exactly the same
"Missing required parameter" error as an absent parameter —
`getStringProperty` collapses every non-string value to the default
`""` — and the handler therefore returns the protocol-level error before
any Flow Driver value is produced. -/
theorem nonstring_param_rejected (args : Args) (key toolName : String) :
    (jsGet args key = none →
      validateRequiredString args key toolName =
        .error ⟨.invalidParams, missingParamMessage key toolName⟩) ∧
    (jsGet args key = some (.str "") →
      validateRequiredString args key toolName =
        .error ⟨.invalidParams, missingParamMessage key toolName⟩) ∧
    (∀ v : JSValue, (∀ s, v ≠ .str s) → jsGet args key = some v →
      validateRequiredString args key toolName =
        .error ⟨.invalidParams, missingParamMessage key toolName⟩) ∧
    (∀ n : Int, jsGet args "project_id" = some (.num n) →
      handleToolCall "view_waveform" args =
        .error ⟨.invalidParams, missingParamMessage "project_id" "view_waveform"⟩) := by
  refine ⟨?_, ?_, ?_, ?_⟩
  · intro h
    simp [validateRequiredString, getStringProperty, h]
  · intro h
    simp [validateRequiredString, getStringProperty, h]
  · intro v hv h
    cases v with
    | str s => exact absurd rfl (hv s)
    | num n => simp [validateRequiredString, getStringProperty, h]
    | boolean b => simp [validateRequiredString, getStringProperty, h]
    | null => simp [validateRequiredString, getStringProperty, h]
  · intro n h
    unfold handleToolCall
    rw [if_neg (by decide), if_neg (by decide), if_pos rfl]
    simp [validateRequiredString, getStringProperty, h]

/-- Witness for C10: a numeric `project_id` for `view_waveform` is
rejected with the same missing-parameter error as an absent one. -/
theorem nonstring_param_rejected_witness :
    validateRequiredString [("project_id", .num 5)] "project_id" "view_waveform" =
      .error ⟨.invalidParams, missingParamMessage "project_id" "view_waveform"⟩ ∧
    handleToolCall "view_waveform" [("project_id", .num 5)] =
      .error ⟨.invalidParams, missingParamMessage "project_id" "view_waveform"⟩ := by
  have h := nonstring_param_rejected [("project_id", .num 5)] "project_id" "view_waveform"
  exact ⟨h.2.2.1 (.num 5) (fun s => by simp) rfl, h.2.2.2 5 rfl⟩

end MCP4EDA
